import Mathlib

/-!
Shallow embedding of the websocket shell bridge (package `shell`):
the Reader dispatch loop, the Responder output fan-in, and the
per-stream `pipe` reader, together with proofs of the behavioural
claims about them.

External collaborators (the three process factories, the transport,
`proc.Stdin().Write`, `proc.Wait()`) are modelled by their outcomes,
passed in as parameters, exactly as the code branches on them.
-/

namespace Shell

/-- Action tag constants from the source (`FORK`, `OPEN`, ...). -/
def FORK : String := "FORK"

/-- Action tag `OPEN`. -/
def OPEN : String := "OPEN"

/-- Action tag `EXEC`. -/
def EXEC : String := "EXEC"

/-- Action tag `RESIZE`. -/
def RESIZE : String := "RESIZE"

/-- Action tag `SIGNAL`. -/
def SIGNAL : String := "SIGNAL"

/-- Inbound request frame (`type request struct`). Optional integers are
`Option Int`; the environment map is an association list. -/
structure request where
  Action : String
  Argv : List String
  Signal : Option Int
  TermName : String
  TermCwd : String
  TermCols : Option Int
  TermRows : Option Int
  TermUid : Option Int
  TermGid : Option Int
  TermEnv : List (String × String)
deriving Repr, DecidableEq

/-- Outbound response frame (`type response struct`). Go zero values are
`0` and `""`; a field left unset in a literal keeps its zero value. -/
structure response where
  Timestamp : Int
  Stdin : String
  Stdout : String
  Stderr : String
  Result : String
deriving Repr, DecidableEq

/-- `response{Timestamp: t, Result: s}` -/
def resultResp (t : Int) (s : String) : response := ⟨t, "", "", "", s⟩

/-- `response{Timestamp: t, Stdin: s}` -/
def stdinResp (t : Int) (s : String) : response := ⟨t, s, "", "", ""⟩

/-- `response{Timestamp: t, Stdout: s}` -/
def stdoutResp (t : Int) (s : String) : response := ⟨t, "", s, "", ""⟩

/-- `response{Timestamp: t, Stderr: s}` -/
def stderrResp (t : Int) (s : String) : response := ⟨t, "", "", s, ""⟩

/-- Outcomes of the external calls a single Reader iteration can make:
whether each factory (`CreateTerminal`, `OpenTerminal`, `CreateCommand`)
would succeed, whether `proc.Stdin().Write` would succeed, and the value
`time.Now().Unix()` returns. -/
structure Env where
  forkOk : Bool
  openOk : Bool
  execOk : Bool
  writeOk : Bool
  now : Int
deriving Repr, DecidableEq

/-- Everything one iteration of `Reader` does with a decoded request:
the child slot afterwards (`wss.proc != nil`), the frames pushed onto
`wss.send` in order, whether `go wss.respond()` was executed, whether a
factory was invoked, whether `proc.Resize` / `proc.Kill` was called, and
the chunk passed to `proc.Stdin().Write` (if any). -/
structure StepResult where
  proc : Bool
  frames : List response
  respondStarted : Bool
  factoryCalled : Bool
  resizeCalled : Bool
  killCalled : Bool
  stdinWritten : Option String
deriving Repr, DecidableEq

/-- One iteration of the `Reader` loop body on a successfully decoded
request `req`, with the child slot state `procPresent` (`wss.proc != nil`)
and external outcomes `env`.  Mirrors the dispatch in `Reader()`:
validation of `Action`, then the IDLE switch (note that the factory
failure branches do *not* `continue`, so control still reaches
`go wss.respond()`), then the BUSY switch where `EXEC` runs
`tx(strings.Join(req.Argv, " "))`. -/
def readerStep (env : Env) (procPresent : Bool) (req : request) : StepResult :=
  if req.Action = "" then
    ⟨procPresent, [resultResp env.now "required field 'Action'"], false, false, false, false, none⟩
  else if procPresent = false then
    if req.Action = FORK then
      if req.Argv.length = 0 then
        ⟨false, [resultResp env.now "missing required field 'Argv'"], false, false, false, false, none⟩
      else if env.forkOk then
        ⟨true, [], true, true, false, false, none⟩
      else
        ⟨false, [resultResp env.now "unable to fork pty"], true, true, false, false, none⟩
    else if req.Action = OPEN then
      if env.openOk then
        ⟨true, [], true, true, false, false, none⟩
      else
        ⟨false, [resultResp env.now "unable to open pty"], true, true, false, false, none⟩
    else if req.Action = EXEC then
      if req.Argv.length = 0 then
        ⟨false, [resultResp env.now "missing required field 'Argv'"], false, false, false, false, none⟩
      else if env.execOk then
        ⟨true, [], true, true, false, false, none⟩
      else
        ⟨false, [resultResp env.now "unable to run exec"], true, true, false, false, none⟩
    else
      ⟨false, [resultResp env.now "no running process"], false, false, false, false, none⟩
  else
    if req.Action = RESIZE then
      ⟨true, [], false, false, true, false, none⟩
    else if req.Action = SIGNAL then
      ⟨true, [], false, false, false, true, none⟩
    else if req.Action = EXEC then
      if env.writeOk then
        ⟨true, [stdinResp env.now (String.intercalate " " req.Argv)], false, false, false, false,
          some (String.intercalate " " req.Argv)⟩
      else
        ⟨true, [resultResp env.now "message failed to send"], false, false, false, false,
          some (String.intercalate " " req.Argv)⟩
    else
      ⟨true, [], false, false, false, false, none⟩

/-- Stream error as the Responder distinguishes it: the code only tests
`e == io.EOF`, so every non-EOF error collapses to `other`. -/
inductive StreamErr where
  | eof : StreamErr
  | other : StreamErr
deriving Repr, DecidableEq

/-- One event of the Responder's five-way `select`: a byte or an error on
either stream, or the one-second timer firing. -/
inductive REvent where
  | outByte (c : Char) : REvent
  | outErr (e : StreamErr) : REvent
  | errByte (c : Char) : REvent
  | errErr (e : StreamErr) : REvent
  | timeout : REvent
deriving Repr, DecidableEq

/-- The Responder's local state: the `eof` latch and the two
accumulators (`stdoutBuf`, `stderrBuf`). -/
structure RespState where
  eof : Bool
  stdoutBuf : String
  stderrBuf : String
deriving Repr, DecidableEq

/-- Initial Responder state (Go zero values). -/
def respInit : RespState := ⟨false, "", ""⟩

/-- Effect of processing one `select` event: frames pushed to `wss.send`
in order, the next state (`none` when the Responder `return`s, upon which
the deferred teardown closes the channels, calls `proc.Close()` and
clears the child slot), and whether `proc.Wait()` was called. -/
structure RespStep where
  frames : List response
  next : Option RespState
  waited : Bool
deriving Repr, DecidableEq

/-- The exit `Result` frame: `fmt.Sprint(err)` when `Wait` returned a
non-nil error rendered as `msg`, else `"0"`. -/
def exitResp (now : Int) (waitErr : Option String) : response :=
  match waitErr with
  | some msg => resultResp now msg
  | none => resultResp now "0"

/-- One step of the Responder's `select` loop, given the current time
`now` (`time.Now().Unix()`) and the outcome `waitErr` that `proc.Wait()`
would report.  Mirrors `respond()` case by case; in the `timeout` branch
the code builds a zero-valued `response` and fills only `Stdout`/`Stderr`,
so its `Timestamp` stays `0`. -/
def respondStep (now : Int) (waitErr : Option String) (st : RespState) (ev : REvent) : RespStep :=
  match ev with
  | .outByte c =>
    let buf := st.stdoutBuf.push c
    if c = '\n' then
      ⟨[stdoutResp now buf], some ⟨st.eof, "", st.stderrBuf⟩, false⟩
    else
      ⟨[], some ⟨st.eof, buf, st.stderrBuf⟩, false⟩
  | .outErr e =>
    match e with
    | .eof =>
      if 0 < st.stdoutBuf.length then
        if st.eof then
          ⟨[stdoutResp now st.stdoutBuf, exitResp now waitErr], none, true⟩
        else
          ⟨[stdoutResp now st.stdoutBuf], some ⟨true, "", st.stderrBuf⟩, false⟩
      else
        if st.eof then
          ⟨[exitResp now waitErr], none, true⟩
        else
          ⟨[], some ⟨true, st.stdoutBuf, st.stderrBuf⟩, false⟩
    | .other =>
      ⟨[resultResp now "connection closed unexpectedly"], none, false⟩
  | .errByte c =>
    let buf := st.stderrBuf.push c
    if c = '\n' then
      ⟨[stderrResp now buf], some ⟨st.eof, st.stdoutBuf, ""⟩, false⟩
    else
      ⟨[], some ⟨st.eof, st.stdoutBuf, buf⟩, false⟩
  | .errErr e =>
    match e with
    | .eof =>
      if 0 < st.stderrBuf.length then
        if st.eof then
          ⟨[stderrResp now st.stderrBuf, exitResp now waitErr], none, true⟩
        else
          ⟨[stderrResp now st.stderrBuf], some ⟨true, st.stdoutBuf, ""⟩, false⟩
      else
        if st.eof then
          ⟨[exitResp now waitErr], none, true⟩
        else
          ⟨[], some ⟨true, st.stdoutBuf, st.stderrBuf⟩, false⟩
    | .other =>
      ⟨[resultResp now "connection closed unexpectedly"], none, false⟩
  | .timeout =>
    if 0 < st.stdoutBuf.length ∨ 0 < st.stderrBuf.length then
      ⟨[⟨0, "", st.stdoutBuf, st.stderrBuf, ""⟩], some ⟨st.eof, "", ""⟩, false⟩
    else
      ⟨[], some st, false⟩

/-- Aggregate result of running the Responder over a sequence of events:
all frames emitted in order, how many times `proc.Wait()` was called, and
the final state (`none` once the Responder has returned; later events are
never processed). -/
structure RunResult where
  frames : List response
  waits : Nat
  fin : Option RespState
deriving Repr, DecidableEq

/-- Fold `respondStep` over an event trace, stopping at the first step
that returns. -/
def respondRun (now : Int) (waitErr : Option String) : RespState → List REvent → RunResult
  | st, [] => ⟨[], 0, some st⟩
  | st, ev :: evs =>
    let r := respondStep now waitErr st ev
    match r.next with
    | none => ⟨r.frames, if r.waited then 1 else 0, none⟩
    | some st2 =>
      let rest := respondRun now waitErr st2 evs
      ⟨r.frames ++ rest.frames, (if r.waited then 1 else 0) + rest.waits, rest.fin⟩

/-- One read outcome of the single-byte read loop in `pipe`: either
`n > 0` with the byte read, or `n = 0` with the error returned. -/
inductive ReadOutcome where
  | got (c : Char) : ReadOutcome
  | fail (e : StreamErr) : ReadOutcome
deriving Repr, DecidableEq

/-- What `pipe`'s goroutine sends, in order, over its two channels. -/
inductive PipeEvent where
  | byte (c : Char) : PipeEvent
  | err (e : StreamErr) : PipeEvent
deriving Repr, DecidableEq

/-- The read loop of `pipe`: forward bytes while `n > 0`, send the error
and stop at the first read with `n = 0`. -/
def pipeLoop : List ReadOutcome → List PipeEvent
  | [] => []
  | .got c :: rest => .byte c :: pipeLoop rest
  | .fail e :: _ => [.err e]

/-- `pipe(reader)`: a `nil` reader immediately sends `io.EOF` on the
error channel and returns; otherwise the goroutine runs the single-byte
read loop.  The reader is modelled by the (finite prefix of) outcomes its
successive `Read` calls produce. -/
def pipeEvents : Option (List ReadOutcome) → List PipeEvent
  | none => [.err .eof]
  | some reads => pipeLoop reads

/-- C7: a successfully decoded request with empty `Action` makes the
Reader emit exactly `Result:"required field 'Action'"`, leave the child
slot as it was (in either state), call no factory, start no Responder,
and perform no process-control side effect; the loop then continues. -/
theorem C7_empty_action (env : Env) (procPresent : Bool) (req : request)
    (h : req.Action = "") :
    readerStep env procPresent req =
      ⟨procPresent, [resultResp env.now "required field 'Action'"],
        false, false, false, false, none⟩ := by
  simp [readerStep, h]

/-- Witness for C7 at a concrete empty-`Action` request. -/
theorem C7_empty_action_witness :
    readerStep ⟨true, true, true, true, 42⟩ false
        ⟨"", [], none, "", "", none, none, none, none, []⟩ =
      ⟨false, [resultResp 42 "required field 'Action'"],
        false, false, false, false, none⟩ :=
  C7_empty_action ⟨true, true, true, true, 42⟩ false
    ⟨"", [], none, "", "", none, none, none, none, []⟩ rfl

/-- C8: a `FORK` or `EXEC` request with empty `Argv` while no child is
present makes the Reader emit exactly
`Result:"missing required field 'Argv'"`, call no factory, adopt no
child, and start no Responder. -/
theorem C8_missing_argv (env : Env) (req : request)
    (ha : req.Action = FORK ∨ req.Action = EXEC) (hv : req.Argv = []) :
    readerStep env false req =
      ⟨false, [resultResp env.now "missing required field 'Argv'"],
        false, false, false, false, none⟩ := by
  rcases ha with h | h <;> simp [readerStep, h, hv, FORK, OPEN, EXEC]

/-- Witness for C8 at a concrete `FORK` request with empty `Argv`. -/
theorem C8_missing_argv_witness :
    readerStep ⟨true, true, true, true, 42⟩ false
        ⟨"FORK", [], none, "xterm", "", none, none, none, none, []⟩ =
      ⟨false, [resultResp 42 "missing required field 'Argv'"],
        false, false, false, false, none⟩ :=
  C8_missing_argv ⟨true, true, true, true, 42⟩
    ⟨"FORK", [], none, "xterm", "", none, none, none, none, []⟩
    (Or.inl rfl) rfl

/-- C9: a request whose `Action` is non-empty and none of `FORK`, `OPEN`,
`EXEC` (so in particular `RESIZE` or `SIGNAL`), received while no child
is present, makes the Reader emit exactly `Result:"no running process"`,
with no process-control side effect, no factory call, and no Responder
started. -/
theorem C9_no_running_process (env : Env) (req : request)
    (h0 : req.Action ≠ "") (h1 : req.Action ≠ FORK) (h2 : req.Action ≠ OPEN)
    (h3 : req.Action ≠ EXEC) :
    readerStep env false req =
      ⟨false, [resultResp env.now "no running process"],
        false, false, false, false, none⟩ := by
  simp [readerStep, h0, h1, h2, h3]

/-- Witness for C9 at a concrete `RESIZE` request while IDLE. -/
theorem C9_no_running_process_witness :
    readerStep ⟨true, true, true, true, 42⟩ false
        ⟨"RESIZE", [], none, "", "", some 80, some 24, none, none, []⟩ =
      ⟨false, [resultResp 42 "no running process"],
        false, false, false, false, none⟩ :=
  C9_no_running_process ⟨true, true, true, true, 42⟩
    ⟨"RESIZE", [], none, "", "", some 80, some 24, none, none, []⟩
    (by decide) (by decide) (by decide) (by decide)

/-- C5: an `EXEC` request while a child is present writes
`strings.Join(Argv, " ")` (single-space separators, no trailing newline
added) as one chunk to the child's stdin; on write success the only frame
emitted is the echo frame with `Stdin` equal to that joined string, and
on write failure the only frame is `Result:"message failed to send"`
with no echo frame. -/
theorem C5_busy_exec (env : Env) (req : request) (h : req.Action = EXEC) :
    readerStep env true req =
      (if env.writeOk then
        ⟨true, [stdinResp env.now (String.intercalate " " req.Argv)],
          false, false, false, false, some (String.intercalate " " req.Argv)⟩
      else
        ⟨true, [resultResp env.now "message failed to send"],
          false, false, false, false, some (String.intercalate " " req.Argv)⟩) := by
  by_cases hw : env.writeOk <;>
    simp [readerStep, h, hw, EXEC, RESIZE, SIGNAL]

/-- Witness for C5 at `{Action:"EXEC", Argv:["echo","hi"]}` with a
successful write. -/
theorem C5_busy_exec_witness :
    readerStep ⟨true, true, true, true, 42⟩ true
        ⟨"EXEC", ["echo", "hi"], none, "", "", none, none, none, none, []⟩ =
      ⟨true, [stdinResp 42 "echo hi"], false, false, false, false,
        some "echo hi"⟩ := by
  have h := C5_busy_exec ⟨true, true, true, true, 42⟩
    ⟨"EXEC", ["echo", "hi"], none, "", "", none, none, none, none, []⟩ rfl
  simpa using h

/-- C10: an `EXEC` request with empty `Argv` while a child is present is
not rejected (the `Argv` validation only runs in the IDLE branch): the
Reader writes `strings.Join([], " ") = ""` to the child's stdin, and on
write success the echo frame carries `Stdin = ""`. -/
theorem C10_busy_exec_empty_argv (env : Env) (req : request)
    (h : req.Action = EXEC) (hv : req.Argv = []) :
    readerStep env true req =
      (if env.writeOk then
        ⟨true, [stdinResp env.now ""], false, false, false, false, some ""⟩
      else
        ⟨true, [resultResp env.now "message failed to send"],
          false, false, false, false, some ""⟩) := by
  by_cases hw : env.writeOk <;>
    simp [readerStep, h, hv, hw, EXEC, RESIZE, SIGNAL, String.intercalate]

/-- Witness for C10 at `{Action:"EXEC", Argv:[]}` with a successful
write. -/
theorem C10_busy_exec_empty_argv_witness :
    readerStep ⟨true, true, true, true, 42⟩ true
        ⟨"EXEC", [], none, "", "", none, none, none, none, []⟩ =
      ⟨true, [stdinResp 42 ""], false, false, false, false, some ""⟩ := by
  have h := C10_busy_exec_empty_argv ⟨true, true, true, true, 42⟩
    ⟨"EXEC", [], none, "", "", none, none, none, none, []⟩ rfl rfl
  simpa using h

/-- C1 (code bug): when a spawn factory fails while no child is present,
the Reader does emit the fixed error frame and the child slot stays
absent, but the failure branches of the IDLE switch do not `continue`,
so control still reaches `go wss.respond()`: a Responder is launched
with a nil child (`respondStarted = true` below), contradicting the
claimed "no Responder becomes active / child present iff Responder
active" invariant — `respond` then dereferences the nil interface. -/
theorem C1_spawn_failure_launches_responder :
    (readerStep ⟨false, false, false, true, 100⟩ false
        ⟨"FORK", ["sh"], none, "", "", none, none, none, none, []⟩ =
      ⟨false, [resultResp 100 "unable to fork pty"], true, true, false, false, none⟩) ∧
    (readerStep ⟨false, false, false, true, 100⟩ false
        ⟨"OPEN", [], none, "", "", none, none, none, none, []⟩ =
      ⟨false, [resultResp 100 "unable to open pty"], true, true, false, false, none⟩) ∧
    (readerStep ⟨false, false, false, true, 100⟩ false
        ⟨"EXEC", ["ls"], none, "", "", none, none, none, none, []⟩ =
      ⟨false, [resultResp 100 "unable to run exec"], true, true, false, false, none⟩) :=
  ⟨rfl, rfl, rfl⟩

/-- C2 (code bug): the one-second periodic flush constructs a zero-valued
`response` and fills only `Stdout`/`Stderr`, so the frame it emits
carries `Timestamp = 0` rather than the wall-clock time at which it was
produced (here `1700000000`). -/
theorem C2_flush_timestamp_zero :
    respondStep 1700000000 none ⟨false, "$ ", ""⟩ REvent.timeout =
      ⟨[⟨0, "", "$ ", "", ""⟩], some ⟨false, "", ""⟩, false⟩ ∧
    (0 : Int) < 1700000000 := by
  exact ⟨rfl, by decide⟩

/-- C6: `pipe` applied to a nil read-handle (as for the stderr of a
PTY-open child) produces exactly one channel event: `io.EOF` on the
error channel, with no byte ever sent. -/
theorem C6_nil_reader_immediate_eof :
    pipeEvents none = [PipeEvent.err StreamErr.eof] := rfl

/-- C4: on each received byte the Responder appends it to that stream's
accumulator, and flushes the accumulator as a `Stdout` (resp. `Stderr`)
frame, clearing it, exactly when the byte is `'\n'`; consequently the
payload flushed by this line path, `buf.push '\n'`, is non-empty and
ends with `'\n'`. -/
theorem C4_line_framing (now : Int) (waitErr : Option String) (st : RespState) (c : Char) :
    (respondStep now waitErr st (REvent.outByte c) =
      (if c = '\n' then
        ⟨[stdoutResp now (st.stdoutBuf.push c)], some ⟨st.eof, "", st.stderrBuf⟩, false⟩
      else
        ⟨[], some ⟨st.eof, st.stdoutBuf.push c, st.stderrBuf⟩, false⟩)) ∧
    (respondStep now waitErr st (REvent.errByte c) =
      (if c = '\n' then
        ⟨[stderrResp now (st.stderrBuf.push c)], some ⟨st.eof, st.stdoutBuf, ""⟩, false⟩
      else
        ⟨[], some ⟨st.eof, st.stdoutBuf, st.stderrBuf.push c⟩, false⟩)) ∧
    (0 < (st.stdoutBuf.push '\n').length ∧
      (st.stdoutBuf.push '\n').data.getLast? = some '\n') ∧
    (0 < (st.stderrBuf.push '\n').length ∧
      (st.stderrBuf.push '\n').data.getLast? = some '\n') := by
  refine ⟨?_, ?_, ⟨?_, ?_⟩, ⟨?_, ?_⟩⟩
  · by_cases h : c = '\n' <;> simp [respondStep, h]
  · by_cases h : c = '\n' <;> simp [respondStep, h]
  · simp [String.length_push]
  · simp [String.push]
  · simp [String.length_push]
  · simp [String.push]

/-- Witness for C4 at a concrete accumulator and the newline byte. -/
theorem C4_line_framing_witness :
    respondStep 7 none ⟨false, "a", ""⟩ (REvent.outByte (Char.ofNat 10)) =
      ⟨[stdoutResp 7 ("a".push (Char.ofNat 10))], some ⟨false, "", ""⟩, false⟩ := by
  have h := (C4_line_framing 7 none ⟨false, "a", ""⟩ (Char.ofNat 10)).1
  simpa using h

/-- A step that called `proc.Wait()` is a returning step whose last
emitted frame is the exit `Result` frame. -/
lemma respondStep_waited_last (now : Int) (waitErr : Option String)
    (st : RespState) (ev : REvent)
    (h : (respondStep now waitErr st ev).waited = true) :
    (respondStep now waitErr st ev).next = none ∧
    (respondStep now waitErr st ev).frames.getLast? = some (exitResp now waitErr) := by
  cases ev with
  | outByte c => by_cases hc : c = '\n' <;> simp [respondStep, hc] at h
  | errByte c => by_cases hc : c = '\n' <;> simp [respondStep, hc] at h
  | timeout =>
    by_cases hb : 0 < st.stdoutBuf.length ∨ 0 < st.stderrBuf.length <;>
      simp [respondStep, hb] at h
  | outErr e =>
    cases e with
    | other => simp [respondStep] at h
    | eof =>
      by_cases hl : 0 < st.stdoutBuf.length <;>
        by_cases he : st.eof <;>
          simp [respondStep, hl, he] at h ⊢
  | errErr e =>
    cases e with
    | other => simp [respondStep] at h
    | eof =>
      by_cases hl : 0 < st.stderrBuf.length <;>
        by_cases he : st.eof <;>
          simp [respondStep, hl, he] at h ⊢

/-- A step that continues (next state present) did not call
`proc.Wait()`. -/
lemma respondStep_next_some_not_waited (now : Int) (waitErr : Option String)
    (st st2 : RespState) (ev : REvent)
    (h : (respondStep now waitErr st ev).next = some st2) :
    (respondStep now waitErr st ev).waited = false := by
  cases ev with
  | outByte c => by_cases hc : c = '\n' <;> simp [respondStep, hc]
  | errByte c => by_cases hc : c = '\n' <;> simp [respondStep, hc]
  | timeout =>
    by_cases hb : 0 < st.stdoutBuf.length ∨ 0 < st.stderrBuf.length <;>
      simp [respondStep, hb]
  | outErr e =>
    cases e with
    | other => simp [respondStep] at h
    | eof =>
      by_cases hl : 0 < st.stdoutBuf.length <;>
        by_cases he : st.eof <;>
          simp [respondStep, hl, he] at h ⊢
  | errErr e =>
    cases e with
    | other => simp [respondStep] at h
    | eof =>
      by_cases hl : 0 < st.stderrBuf.length <;>
        by_cases he : st.eof <;>
          simp [respondStep, hl, he] at h ⊢

/-- Over any event trace, `proc.Wait()` is called at most once, and if it
is called then the run has returned and the last frame of the whole run
is the exit `Result` frame. -/
lemma respondRun_wait_once (now : Int) (waitErr : Option String) :
    ∀ (evs : List REvent) (st : RespState),
      (respondRun now waitErr st evs).waits ≤ 1 ∧
      ((respondRun now waitErr st evs).waits = 1 →
        (respondRun now waitErr st evs).fin = none ∧
        (respondRun now waitErr st evs).frames.getLast? =
          some (exitResp now waitErr)) := by
  intro evs
  induction evs with
  | nil => intro st; simp [respondRun]
  | cons ev evs ih =>
    intro st
    rcases hn : (respondStep now waitErr st ev).next with _ | st2
    · rcases hw : (respondStep now waitErr st ev).waited with _ | _
      · constructor
        · simp [respondRun, hn, hw]
        · intro h1
          simp [respondRun, hn, hw] at h1
      · obtain ⟨-, hlast⟩ := respondStep_waited_last now waitErr st ev hw
        constructor
        · simp [respondRun, hn, hw]
        · intro _
          simp [respondRun, hn, hw, hlast]
    · have hw := respondStep_next_some_not_waited now waitErr st st2 ev hn
      obtain ⟨ih1, ih2⟩ := ih st2
      constructor
      · simp [respondRun, hn, hw, ih1]
      · intro h1
        simp [respondRun, hn, hw] at h1
        obtain ⟨hfin, hlast⟩ := ih2 h1
        constructor
        · simp [respondRun, hn, hw, hfin]
        · simp [respondRun, hn, hw]
          exact Or.inl hlast

/-- C3 (code bug): at the second EOF the Responder flushes only the
accumulator of the stream the EOF arrived on.  The byte channels are
buffered (1024) while the error channels are unbuffered and `select`
chooses among ready cases at random, so a byte can be received after its
own stream's EOF event; it then refills that accumulator, and the second
EOF, arriving on the other stream, drops it unflushed.  Evaluated trace:
stdout EOF first (accumulator empty, latch set), then the late byte
`'x'`, then stderr EOF — the state before the second EOF holds `"x"` in
the stdout accumulator, yet the whole run emits only `Result:"0"`, so
the byte is never flushed, contradicting the claimed "flushes any
remaining accumulator, then calls Wait" (`Wait` was called once and its
exit frame is the last frame, which parts do hold, cf.
`respondRun_wait_once`). -/
theorem C3_second_eof_drops_late_bytes :
    (respondRun 5 none respInit
        [REvent.outErr StreamErr.eof, REvent.outByte 'x'] =
      ⟨[], 0, some ⟨true, "x", ""⟩⟩) ∧
    (respondRun 5 none respInit
        [REvent.outErr StreamErr.eof, REvent.outByte 'x',
          REvent.errErr StreamErr.eof] =
      ⟨[exitResp 5 none], 1, none⟩) :=
  ⟨rfl, rfl⟩

end Shell
